import Mathlib

/-!
Shallow embedding of the `ReportGenerator` React component in
`src/app/page.jsx` (reports-hub).

The component keeps six pieces of React state (`selectedReport`, `filters`,
`generationStatus`, `progress`, `reportHistory`, plus a `useRef` holding the
current `AbortController`), and one implicit piece of runtime state: the
`setInterval` timer created by `simulateGeneration`, whose callback closes
over the `selectedReport` and `filters` values of the render in which
`generateReport` was invoked, and over a local mutable `currentProgress`.

We model this as a `Session` record.  The `AbortController` is a record with
an identity (`cid`) and an `aborted` flag; the live interval is a `Timer`
record remembering the controller its abort-cleanup listener is attached to,
the captured closure values, and `currentProgress`.  JavaScript objects used
as string maps (`filters`) are modelled as insertion-ordered association
lists with unique keys, the spread-update `{ ...prev, [k]: v }` as `upsert`.
Timestamps are naturals (milliseconds).  A tick that would dereference
`selectedReport.name` with `selectedReport === null` throws in JavaScript;
the embedding returns `none` in that case, so `tick` is `Option`-valued.
-/

namespace ReportsHub

/-- One filter specification of a report template (entries of the
`filters` arrays in `REPORT_TYPES`): `id`, `label`, `type`, and for
`type: 'select'` the list of options (`none` for the date input). -/
structure FilterSpec where
  id : String
  label : String
  type : String
  options : Option (List String)
deriving DecidableEq

/-- A report template: one value of the `REPORT_TYPES` object. -/
structure ReportTemplate where
  name : String
  description : String
  filters : List FilterSpec
deriving DecidableEq

/-- The `REPORT_TYPES` catalog from `src/app/page.jsx`, as an
insertion-ordered key/value list (JavaScript object). -/
def REPORT_TYPES : List (String × ReportTemplate) :=
  [("sales",
    { name := "Sales Report"
      description := "A comprehensive overview of sales performance including revenue by region, product category distribution, and period-over-period comparisons. Use this report to track sales trends and identify top-performing categories."
      filters :=
        [⟨"dateRange", "Date Range", "date", none⟩,
         ⟨"region", "Region", "select", some ["North", "South", "East", "West"]⟩,
         ⟨"productCategory", "Product Category", "select", some ["Electronics", "Clothing", "Furniture"]⟩] }),
   ("inventory",
    { name := "Inventory Report"
      description := "Detailed analysis of current inventory levels, stock movement, and warehouse capacity utilization. This report helps identify overstocked items, stockouts, and optimize inventory management."
      filters :=
        [⟨"warehouse", "Warehouse", "select", some ["Warehouse A", "Warehouse B", "Warehouse C"]⟩,
         ⟨"productType", "Product Type", "select", some ["Raw Materials", "Finished Goods", "Spare Parts"]⟩] }),
   ("revenue",
    { name := "Revenue Report"
      description := "Financial performance analysis showing revenue streams, profit margins, and quarterly comparisons. Use this report for financial planning and identifying revenue growth opportunities."
      filters :=
        [⟨"year", "Year", "select", some ["2022", "2023", "2024"]⟩,
         ⟨"quarter", "Quarter", "select", some ["Q1", "Q2", "Q3", "Q4"]⟩] })]

/-- The non-null values of the `generationStatus` React state
(`'generating' | 'completed' | 'cancelled'`); the state itself is
`Option GStatus`, with `none` for JavaScript `null`. -/
inductive GStatus where
  | generating
  | completed
  | cancelled
deriving DecidableEq

/-- A record of `reportHistory`: the `newReport` object literal built by
`simulateGeneration` on completion.  The source field `type` holds the
template's display name. -/
structure ReportRecord where
  id : Nat
  type : String
  filters : List (String × String)
  generatedAt : Nat
  expirationDate : Nat
  downloadLink : String
deriving DecidableEq

/-- An `AbortController`: an identity (so a timer can say which controller
its cleanup listener is attached to) plus the `signal.aborted` flag. -/
structure Controller where
  cid : Nat
  aborted : Bool
deriving DecidableEq

/-- The live `setInterval` of `simulateGeneration`: the controller its
abort-cleanup listener is attached to, the `selectedReport` and `filters`
values captured by the callback's closure, and the callback's local
`currentProgress` variable. -/
structure Timer where
  controllerId : Nat
  captSelected : Option ReportTemplate
  captFilters : List (String × String)
  currentProgress : Nat
deriving DecidableEq

/-- The whole component state: the six `useState`/`useRef` cells plus the
live interval (`none` when no interval is scheduled) and a counter for
minting fresh controller identities. -/
structure Session where
  selectedReport : Option ReportTemplate
  filters : List (String × String)
  generationStatus : Option GStatus
  progress : Nat
  reportHistory : List ReportRecord
  ref : Option Controller
  timer : Option Timer
  nextCid : Nat
deriving DecidableEq

/-- The initial component state: `useState(null)`, `useState({})`,
`useState(null)`, `useState(0)`, `useState([])`, `useRef(null)`. -/
def init : Session :=
  { selectedReport := none, filters := [], generationStatus := none,
    progress := 0, reportHistory := [], ref := none, timer := none,
    nextCid := 0 }

/-- JavaScript object spread-update `{ ...prev, [k]: v }`: an existing key
keeps its insertion position and gets the new value, a new key is appended
at the end. -/
def upsert (k v : String) : List (String × String) → List (String × String)
  | [] => [(k, v)]
  | (k', v') :: rest => if k' = k then (k, v) :: rest else (k', v') :: upsert k v rest

/-- The 28-day retention window: `28 * 24 * 60 * 60 * 1000` milliseconds. -/
def RETENTION_MS : Nat := 28 * 24 * 60 * 60 * 1000

/-- The `newReport` object literal built at the completion tick at time
`now` (`Date.now()`), for captured template `T` and captured filters
`fvs` (the `{ ...filters }` snapshot of the closure's `filters`). -/
def mkReportRecord (now : Nat) (T : ReportTemplate) (fvs : List (String × String)) :
    ReportRecord :=
  { id := now
    type := T.name
    filters := fvs
    generatedAt := now
    expirationDate := now + RETENTION_MS
    downloadLink := "/api/download-report-" ++ toString now }

/-- `deleteReport(reportId)`: `setReportHistory(prev => prev.filter(report => report.id !== reportId))`. -/
def deleteReport (reportId : Nat) (s : Session) : Session :=
  { s with reportHistory := s.reportHistory.filter (fun report => report.id ≠ reportId) }

/-- `controller.abort()` on the controller currently held by
`abortControllerRef`: sets `signal.aborted` and synchronously runs the abort
listeners attached to this controller — the only listener ever attached is
the `cleanup` of the interval whose `controllerId` matches, which runs
`clearInterval`. -/
def abortController (c : Controller) (s : Session) : Session :=
  let s1 : Session := { s with ref := some { c with aborted := true } }
  match s1.timer with
  | some t => if t.controllerId = c.cid then { s1 with timer := none } else s1
  | none => s1

/-- `generateReport()`: aborts any existing controller (which clears the
prior interval via its cleanup listener), installs a fresh controller, sets
status `'generating'` and progress `0`, and starts `simulateGeneration`'s
interval, whose callback captures the current `selectedReport` and
`filters` and starts from `currentProgress = 0`; the cleanup listener is
attached to the fresh controller. -/
def generateReport (s : Session) : Session :=
  let s1 : Session :=
    match s.ref with
    | some c => abortController c s
    | none => s
  { s1 with
    ref := some { cid := s.nextCid, aborted := false }
    nextCid := s.nextCid + 1
    generationStatus := some GStatus.generating
    progress := 0
    timer := some { controllerId := s.nextCid, captSelected := s.selectedReport,
                    captFilters := s.filters, currentProgress := 0 } }

/-- `cancelGeneration()`: if a controller is installed, abort it (running
its cleanup listener, which clears the matching interval) and null the ref;
then `setGenerationStatus(null)` and `setProgress(0)`. -/
def cancelGeneration (s : Session) : Session :=
  let s1 : Session :=
    match s.ref with
    | some c => { (abortController c s) with ref := none }
    | none => s
  { s1 with generationStatus := none, progress := 0 }

/-- `updateFilter(filterId, value)`: `setFilters(prev => ({ ...prev, [filterId]: value }))`. -/
def updateFilter (filterId value : String) (s : Session) : Session :=
  { s with filters := upsert filterId value s.filters }

/-- The `Select onValueChange` handler for the report type:
`setSelectedReport(REPORT_TYPES[value]); setGenerationStatus(null); setFilters({})`. -/
def selectReportTemplate (key : String) (s : Session) : Session :=
  { s with selectedReport := (REPORT_TYPES.lookup key)
           generationStatus := none
           filters := [] }

/-- Body of the interval callback past the abort check:
`currentProgress += 10; setProgress(currentProgress);` then on
`currentProgress >= 100`: `clearInterval`, `setGenerationStatus('completed')`,
build `newReport` (this dereferences the captured `selectedReport`, so a
`null` capture throws — modelled as `none`), prepend it, and null the ref. -/
def tickAdvance (now : Nat) (t : Timer) (s : Session) : Option Session :=
  let p := t.currentProgress + 10
  if 100 ≤ p then
    match t.captSelected with
    | none => none
    | some T =>
      some { s with
        progress := p
        timer := none
        generationStatus := some GStatus.completed
        reportHistory := mkReportRecord now T t.captFilters :: s.reportHistory
        ref := none }
  else
    some { s with progress := p, timer := some { t with currentProgress := p } }

/-- One firing of the interval callback at time `now` (a no-op if no
interval is scheduled).  First the cancellation check
`abortControllerRef.current?.signal.aborted` (against the ref's *current*
controller; a null ref is falsy): if aborted, `clearInterval`,
`setGenerationStatus('cancelled')`, `setProgress(0)`; otherwise advance. -/
def tick (now : Nat) (s : Session) : Option Session :=
  match s.timer with
  | none => some s
  | some t =>
    match s.ref with
    | some c =>
      if c.aborted then
        some { s with timer := none, generationStatus := some GStatus.cancelled, progress := 0 }
      else
        tickAdvance now t s
    | none => tickAdvance now t s

/-- The `activeReports` memo:
`reportHistory.filter(report => report.expirationDate > now)`. -/
def activeReports (now : Nat) (reportHistory : List ReportRecord) : List ReportRecord :=
  reportHistory.filter (fun report => now < report.expirationDate)

/-- The Generate Report button's `disabled` expression:
`!selectedReport || Object.keys(filters).length !== selectedReport.filters.length`
(our association list has unique keys, so its length is
`Object.keys(filters).length`). -/
def generateButtonDisabled (s : Session) : Bool :=
  match s.selectedReport with
  | none => true
  | some T => s.filters.length != T.filters.length

/-- The user-visible operations plus the timer tick.  `efilter` is the UI
filter-change handler, which calls `updateFilter` and then
`setGenerationStatus(null)`. -/
inductive Event where
  | egenerate
  | ecancel
  | eselect (key : String)
  | efilter (filterId value : String)
  | edelete (reportId : Nat)
  | etick
deriving DecidableEq

/-- One step of the session at time `now` (only `etick` looks at the
clock).  `none` models a thrown exception. -/
def step (now : Nat) (e : Event) (s : Session) : Option Session :=
  match e with
  | Event.egenerate => some (generateReport s)
  | Event.ecancel => some (cancelGeneration s)
  | Event.eselect key => some (selectReportTemplate key s)
  | Event.efilter fid v => some { (updateFilter fid v s) with generationStatus := none }
  | Event.edelete rid => some (deleteReport rid s)
  | Event.etick => tick now s

/-- Run a timed event trace. -/
def runTrace : List (Nat × Event) → Session → Option Session
  | [], s => some s
  | (n, e) :: tr, s =>
    match step n e s with
    | none => none
    | some s' => runTrace tr s'

/-- Run a sequence of ticks at the given times. -/
def runTicks : List Nat → Session → Option Session
  | [], s => some s
  | n :: ns, s =>
    match tick n s with
    | none => none
    | some s' => runTicks ns s'

/-- `σ` is reachable from `s` by some event trace. -/
def Reaches (s σ : Session) : Prop :=
  ∃ tr : List (Nat × Event), runTrace tr s = some σ

/-- The session's structural invariant: a live interval's cleanup listener
is attached to the currently installed, not-yet-aborted controller, and
controller identities already in use are below `nextCid`. -/
def invB (s : Session) : Bool :=
  match s.timer, s.ref with
  | some t, some c =>
      (c.cid == t.controllerId) && !c.aborted && decide (t.controllerId < s.nextCid)
  | some _, none => false
  | none, some c => decide (c.cid < s.nextCid)
  | none, none => true

/-- The session holds an in-flight, not-aborted attempt with controller
identity `c`, captured template `T?`, captured filters `F`, and progress
`p` (both the callback-local `currentProgress` and the rendered
`progress`). -/
def InFlightAt (s : Session) (c : Nat) (T? : Option ReportTemplate)
    (F : List (String × String)) (p : Nat) : Prop :=
  s.timer = some { controllerId := c, captSelected := T?, captFilters := F,
                   currentProgress := p } ∧
  s.ref = some { cid := c, aborted := false } ∧
  s.progress = p

/-! Concrete fixtures used by the witness theorems. -/

/-- The "Sales Report" template of the catalog. -/
def salesTemplate : ReportTemplate :=
  (REPORT_TYPES.lookup "sales").getD { name := "", description := "", filters := [] }

/-- A complete filter assignment for the sales template. -/
def salesFilters : List (String × String) :=
  [("dateRange", "2024-01"), ("region", "North"), ("productCategory", "Electronics")]

/-- Session with "Sales Report" selected and all three filters set. -/
def salesSession : Session :=
  updateFilter "productCategory" "Electronics"
    (updateFilter "region" "North"
      (updateFilter "dateRange" "2024-01" (selectReportTemplate "sales" init)))

/-- An in-flight sales attempt one tick away from completion. -/
def inflight90 : Session :=
  { selectedReport := some salesTemplate, filters := salesFilters,
    generationStatus := some GStatus.generating, progress := 90,
    reportHistory := [], ref := some { cid := 0, aborted := false },
    timer := some { controllerId := 0, captSelected := some salesTemplate,
                    captFilters := salesFilters, currentProgress := 90 },
    nextCid := 1 }

/-- Session whose history holds two records with distinct ids. -/
def histSession : Session :=
  { init with reportHistory :=
      [mkReportRecord 200 salesTemplate salesFilters,
       mkReportRecord 100 salesTemplate salesFilters] }

/-- `generateReport` always yields the same state, whatever it had to abort
first: the abort of a stale controller only clears fields that
`generateReport` overwrites anyway. -/
theorem generateReport_eq (s : Session) :
    generateReport s =
      { s with
        ref := some { cid := s.nextCid, aborted := false }
        nextCid := s.nextCid + 1
        generationStatus := some GStatus.generating
        progress := 0
        timer := some { controllerId := s.nextCid, captSelected := s.selectedReport,
                        captFilters := s.filters, currentProgress := 0 } } := by
  unfold generateReport abortController
  rcases hr : s.ref with _ | c
  · rfl
  · rcases ht : s.timer with _ | t
    · simp [ht]
    · simp only [ht]
      by_cases hc : t.controllerId = c.cid <;> simp [hc]

/-- An in-flight attempt's ticks strictly below the 100% threshold only
advance the progress. -/
theorem tick_mid (n : Nat) (s : Session) (c : Nat) (T? : Option ReportTemplate)
    (F : List (String × String)) (p : Nat)
    (h : InFlightAt s c T? F p) (hp : p + 10 < 100) :
    tick n s = some
      { s with
        progress := p + 10
        timer := some { controllerId := c, captSelected := T?, captFilters := F,
                        currentProgress := p + 10 } } := by
  obtain ⟨ht, hr, _⟩ := h
  simp [tick, ht, hr, tickAdvance, Nat.not_le.mpr hp]

/-- An in-flight attempt's tick that reaches the 100% threshold stops the
interval, sets `completed`, prepends the report record built from the
captured template and filters, and nulls the controller ref. -/
theorem tick_complete (n : Nat) (s : Session) (c : Nat) (T : ReportTemplate)
    (F : List (String × String)) (p : Nat)
    (h : InFlightAt s c (some T) F p) (hp : 100 ≤ p + 10) :
    tick n s = some
      { s with
        progress := p + 10
        timer := none
        generationStatus := some GStatus.completed
        reportHistory := mkReportRecord n T F :: s.reportHistory
        ref := none } := by
  obtain ⟨ht, hr, _⟩ := h
  simp [tick, ht, hr, tickAdvance, hp]

/-- With no interval scheduled, a tick does nothing. -/
theorem tick_noTimer (n : Nat) (s : Session) (h : s.timer = none) :
    tick n s = some s := by
  simp [tick, h]

/-- Splitting a tick run. -/
theorem runTicks_append (ts us : List Nat) (s s' : Session)
    (h : runTicks ts s = some s') :
    runTicks (ts ++ us) s = runTicks us s' := by
  induction ts generalizing s with
  | nil => simp [runTicks] at h; subst h; rfl
  | cons a as ih =>
    simp only [runTicks] at h ⊢
    rcases htk : tick a s with _ | s1
    · rw [htk] at h; exact absurd h (by simp)
    · rw [htk] at h
      exact ih s1 h

/-- Any number of ticks that stays strictly below the 100% threshold keeps
the attempt in flight, advancing progress by 10 per tick and touching no
other field. -/
theorem runTicks_mid :
    ∀ (ts : List Nat) (s : Session) (c : Nat) (T? : Option ReportTemplate)
      (F : List (String × String)) (p : Nat),
      InFlightAt s c T? F p → p + 10 * ts.length < 100 →
      ∃ σ, runTicks ts s = some σ ∧ InFlightAt σ c T? F (p + 10 * ts.length) ∧
        σ.reportHistory = s.reportHistory ∧
        σ.generationStatus = s.generationStatus ∧
        σ.filters = s.filters ∧ σ.selectedReport = s.selectedReport ∧
        σ.nextCid = s.nextCid := by
  intro ts
  induction ts with
  | nil =>
    intro s c T? F p h _
    exact ⟨s, rfl, by simpa using h, rfl, rfl, rfl, rfl, rfl⟩
  | cons a as ih =>
    intro s c T? F p h hp
    have hlen : (a :: as).length = as.length + 1 := rfl
    have h10 : p + 10 < 100 := by rw [hlen] at hp; omega
    have hm := tick_mid a s c T? F p h h10
    have h1 : InFlightAt
        { s with
          progress := p + 10
          timer := some { controllerId := c, captSelected := T?, captFilters := F,
                          currentProgress := p + 10 } } c T? F (p + 10) := by
      obtain ⟨_, hr, _⟩ := h
      exact ⟨rfl, hr, rfl⟩
    have hp1 : (p + 10) + 10 * as.length < 100 := by rw [hlen] at hp; omega
    obtain ⟨σ, hrun, hin, hh, hg, hf, hsel, hn⟩ := ih _ c T? F (p + 10) h1 hp1
    refine ⟨σ, ?_, ?_, hh, hg, hf, hsel, hn⟩
    · simp only [runTicks, hm]
      exact hrun
    · have harith : p + 10 + 10 * as.length = p + 10 * (a :: as).length := by
        rw [hlen]; ring
      rwa [harith] at hin

/-- An in-flight attempt at progress `p` with `p + 10 * ts.length = 90`
runs `ts` intermediate ticks and then one final tick that completes:
`completed`, progress 100, interval and controller gone, exactly the
record built from the captured template and filters prepended, and every
later tick a no-op. -/
theorem runTicks_complete (ts : List Nat) (tn : Nat) (s : Session) (c : Nat)
    (T : ReportTemplate) (F : List (String × String)) (p : Nat)
    (h : InFlightAt s c (some T) F p) (hlen : p + 10 * ts.length = 90) :
    ∃ σ, runTicks (ts ++ [tn]) s = some σ ∧
      σ.generationStatus = some GStatus.completed ∧
      σ.progress = 100 ∧ σ.timer = none ∧ σ.ref = none ∧
      σ.reportHistory = mkReportRecord tn T F :: s.reportHistory ∧
      σ.filters = s.filters ∧ σ.selectedReport = s.selectedReport ∧
      (∀ m, tick m σ = some σ) := by
  obtain ⟨σ1, hrun, hin, hh, hg, hf, hsel, _⟩ :=
    runTicks_mid ts s c (some T) F p h (by omega)
  rw [hlen] at hin
  have hcomp := tick_complete tn σ1 c T F 90 hin (by omega)
  refine ⟨{ σ1 with
            progress := 90 + 10
            timer := none
            generationStatus := some GStatus.completed
            reportHistory := mkReportRecord tn T F :: σ1.reportHistory
            ref := none }, ?_, rfl, rfl, rfl, rfl, ?_, ?_, ?_, ?_⟩
  · rw [runTicks_append ts [tn] s σ1 hrun]
    simp [runTicks, hcomp]
  · simp [hh]
  · simpa using hf
  · simpa using hsel
  · intro m
    exact tick_noTimer m _ rfl

/-- `cancelGeneration` leaves `nextCid` alone. -/
theorem cancelGeneration_nextCid (σ : Session) :
    (cancelGeneration σ).nextCid = σ.nextCid := by
  rcases hr : σ.ref with _ | c
  · simp [cancelGeneration, hr]
  · rcases ht : σ.timer with _ | t
    · simp [cancelGeneration, abortController, hr, ht]
    · by_cases hc : t.controllerId = c.cid <;>
        simp [cancelGeneration, abortController, hr, ht, hc]

/-- `cancelGeneration` never creates an interval: any interval live after
it was already live before. -/
theorem cancelGeneration_timer (σ : Session) (u : Timer)
    (hu : (cancelGeneration σ).timer = some u) : σ.timer = some u := by
  rcases hr : σ.ref with _ | c
  · simpa [cancelGeneration, hr] using hu
  · rcases ht : σ.timer with _ | t
    · simp [cancelGeneration, abortController, hr, ht] at hu
    · by_cases hc : t.controllerId = c.cid
      · simp [cancelGeneration, abortController, hr, ht, hc] at hu
      · simp only [cancelGeneration, abortController, hr, ht, if_neg hc] at hu
        simp only [Option.some_inj] at hu
        exact congrArg some hu

/-- With an installed, aborted controller, a tick takes the cancellation
branch: clear the interval, set `'cancelled'`, reset progress. -/
theorem tick_aborted (n : Nat) (σ : Session) (t : Timer) (c : Controller)
    (ht : σ.timer = some t) (hr : σ.ref = some c) (hab : c.aborted = true) :
    tick n σ = some
      { σ with
        timer := none
        generationStatus := some GStatus.cancelled
        progress := 0 } := by
  simp [tick, ht, hr, hab]

/-- With a not-aborted installed controller (or a null ref), a tick runs
the advancing body. -/
theorem tick_eq_advance (n : Nat) (σ : Session) (t : Timer)
    (ht : σ.timer = some t)
    (hr : σ.ref = none ∨ ∃ c, σ.ref = some c ∧ c.aborted = false) :
    tick n σ = tickAdvance n t σ := by
  rcases hr with hr | ⟨c, hr, hab⟩
  · simp [tick, ht, hr]
  · simp [tick, ht, hr, hab]

/-- The advancing tick body leaves `nextCid` alone and keeps the interval's
controller identity when it keeps the interval at all. -/
theorem tickAdvance_timer (n : Nat) (t : Timer) (σ σ' : Session)
    (hA : tickAdvance n t σ = some σ') :
    σ'.nextCid = σ.nextCid ∧
    ∀ u, σ'.timer = some u → u.controllerId = t.controllerId := by
  simp only [tickAdvance] at hA
  split at hA
  · split at hA
    · exact absurd hA (by simp)
    · rw [Option.some_inj] at hA
      subst hA
      exact ⟨rfl, fun u hu => by simp at hu⟩
  · rw [Option.some_inj] at hA
    subst hA
    refine ⟨rfl, fun u hu => ?_⟩
    simp only [Option.some_inj] at hu
    rw [← hu]

/-- A tick leaves `nextCid` alone and never changes the live interval's
controller: any interval live after was live with the same controller
before. -/
theorem tick_timer_next (n : Nat) (σ σ' : Session) (h : tick n σ = some σ') :
    σ'.nextCid = σ.nextCid ∧
    ∀ u, σ'.timer = some u →
      ∃ t, σ.timer = some t ∧ u.controllerId = t.controllerId := by
  rcases ht : σ.timer with _ | t
  · rw [tick_noTimer n σ ht, Option.some_inj] at h
    subst h
    refine ⟨rfl, fun u hu => ?_⟩
    rw [ht] at hu
    simp at hu
  · have hadv : tickAdvance n t σ = some σ' →
        σ'.nextCid = σ.nextCid ∧
        ∀ u, σ'.timer = some u →
          ∃ t', some t = some t' ∧ u.controllerId = t'.controllerId := by
      intro hA
      obtain ⟨hn, hu⟩ := tickAdvance_timer n t σ σ' hA
      exact ⟨hn, fun u huu => ⟨t, rfl, hu u huu⟩⟩
    rcases hr : σ.ref with _ | c
    · exact hadv (by rw [← tick_eq_advance n σ t ht (Or.inl hr)]; exact h)
    · by_cases hab : c.aborted = true
      · rw [tick_aborted n σ t c ht hr hab, Option.some_inj] at h
        subst h
        exact ⟨rfl, fun u hu => by simp at hu⟩
      · have hab' : c.aborted = false := by
          cases hcc : c.aborted
          · rfl
          · exact absurd hcc hab
        exact hadv (by
          rw [← tick_eq_advance n σ t ht (Or.inr ⟨c, hr, hab'⟩)]
          exact h)

/-- Across any successful step, `nextCid` never decreases, and the live
interval afterwards is either (a continuation of) the one before the step
or the fresh one minted by `generateReport`. -/
theorem step_timer_next (n : Nat) (e : Event) (σ σ' : Session)
    (h : step n e σ = some σ') :
    σ.nextCid ≤ σ'.nextCid ∧
    ∀ u, σ'.timer = some u →
      (∃ t, σ.timer = some t ∧ u.controllerId = t.controllerId) ∨
      u.controllerId = σ.nextCid := by
  cases e with
  | egenerate =>
    simp only [step, Option.some_inj] at h
    subst h
    rw [generateReport_eq]
    refine ⟨Nat.le_succ _, fun u hu => ?_⟩
    simp only [Option.some_inj] at hu
    exact Or.inr (by rw [← hu])
  | ecancel =>
    simp only [step, Option.some_inj] at h
    subst h
    rw [cancelGeneration_nextCid]
    exact ⟨Nat.le_refl _, fun u hu =>
      Or.inl ⟨u, cancelGeneration_timer σ u hu, rfl⟩⟩
  | eselect key =>
    simp only [step, Option.some_inj] at h
    subst h
    exact ⟨Nat.le_refl _, fun u hu => Or.inl ⟨u, hu, rfl⟩⟩
  | efilter fid v =>
    simp only [step, Option.some_inj] at h
    subst h
    exact ⟨Nat.le_refl _, fun u hu => Or.inl ⟨u, hu, rfl⟩⟩
  | edelete rid =>
    simp only [step, Option.some_inj] at h
    subst h
    exact ⟨Nat.le_refl _, fun u hu => Or.inl ⟨u, hu, rfl⟩⟩
  | etick =>
    simp only [step] at h
    obtain ⟨hn, hcase⟩ := tick_timer_next n σ σ' h
    exact ⟨Nat.le_of_eq hn.symm, fun u hu => Or.inl (hcase u hu)⟩

/-- Once no live interval carries controller identity `tid` and `tid` is
already stale (below `nextCid`), this stays true along every trace: `tid`
can never again be the live interval's controller. -/
theorem runTrace_stale :
    ∀ (tr : List (Nat × Event)) (s σ : Session) (tid : Nat),
      runTrace tr s = some σ →
      tid < s.nextCid → (∀ u, s.timer = some u → u.controllerId ≠ tid) →
      tid < σ.nextCid ∧ ∀ u, σ.timer = some u → u.controllerId ≠ tid := by
  intro tr
  induction tr with
  | nil =>
    intro s σ tid h h0 h1
    simp only [runTrace, Option.some_inj] at h
    subst h
    exact ⟨h0, h1⟩
  | cons ne tr ih =>
    intro s σ tid h h0 h1
    obtain ⟨n, e⟩ := ne
    simp only [runTrace] at h
    rcases hs : step n e s with _ | s' <;> rw [hs] at h
    · exact absurd h (by simp)
    · obtain ⟨hle, hcase⟩ := step_timer_next n e s s' hs
      refine ih s' σ tid h (Nat.lt_of_lt_of_le h0 hle) ?_
      intro u hu
      rcases hcase u hu with ⟨t, htm, heq⟩ | heq
      · rw [heq]; exact h1 t htm
      · rw [heq]; omega

/-- `cancelGeneration` leaves the history alone. -/
theorem cancelGeneration_history (σ : Session) :
    (cancelGeneration σ).reportHistory = σ.reportHistory := by
  rcases hr : σ.ref with _ | c
  · simp [cancelGeneration, hr]
  · rcases htm : σ.timer with _ | t
    · simp [cancelGeneration, abortController, hr, htm]
    · by_cases hc : t.controllerId = c.cid <;>
        simp [cancelGeneration, abortController, hr, htm, hc]

/-- The advancing tick body only ever prepends a single fresh record. -/
theorem tickAdvance_history (m : Nat) (t : Timer) (σ1 σ2 : Session)
    (hA : tickAdvance m t σ1 = some σ2) :
    ∀ r, r ∈ σ2.reportHistory →
      r ∈ σ1.reportHistory ∨ σ2.reportHistory = r :: σ1.reportHistory := by
  simp only [tickAdvance] at hA
  split at hA
  · split at hA
    · exact absurd hA (by simp)
    · rw [Option.some_inj] at hA
      subst hA
      intro r hr
      rcases List.mem_cons.1 hr with h1 | h2
      · right
        rw [h1]
      · exact Or.inl h2
  · rw [Option.some_inj] at hA
    subst hA
    exact fun r hr => Or.inl hr

/-- A tick only ever prepends a single fresh record to the history. -/
theorem tick_history (m : Nat) (σ1 σ2 : Session) (h : tick m σ1 = some σ2) :
    ∀ r, r ∈ σ2.reportHistory →
      r ∈ σ1.reportHistory ∨ σ2.reportHistory = r :: σ1.reportHistory := by
  rcases ht : σ1.timer with _ | t
  · rw [tick_noTimer m σ1 ht, Option.some_inj] at h
    subst h
    exact fun r hr => Or.inl hr
  · rcases hr : σ1.ref with _ | c
    · exact tickAdvance_history m t σ1 σ2
        (by rw [← tick_eq_advance m σ1 t ht (Or.inl hr)]; exact h)
    · by_cases hab : c.aborted = true
      · rw [tick_aborted m σ1 t c ht hr hab, Option.some_inj] at h
        subst h
        exact fun r hr' => Or.inl hr'
      · have hab' : c.aborted = false := by
          cases hcc : c.aborted
          · rfl
          · exact absurd hcc hab
        exact tickAdvance_history m t σ1 σ2
          (by rw [← tick_eq_advance m σ1 t ht (Or.inr ⟨c, hr, hab'⟩)]; exact h)

/-- No step ever rewrites an existing history record: after any step, each
record either was already in the history, or is the one freshly prepended
record of a completion tick. -/
theorem step_history (m : Nat) (e : Event) (σ1 σ2 : Session)
    (h : step m e σ1 = some σ2) :
    ∀ r, r ∈ σ2.reportHistory →
      r ∈ σ1.reportHistory ∨ σ2.reportHistory = r :: σ1.reportHistory := by
  cases e with
  | egenerate =>
    simp only [step, Option.some_inj] at h
    subst h
    rw [generateReport_eq]
    exact fun r hr => Or.inl hr
  | ecancel =>
    simp only [step, Option.some_inj] at h
    subst h
    rw [cancelGeneration_history]
    exact fun r hr => Or.inl hr
  | eselect key =>
    simp only [step, Option.some_inj] at h
    subst h
    exact fun r hr => Or.inl hr
  | efilter fid v =>
    simp only [step, Option.some_inj] at h
    subst h
    exact fun r hr => Or.inl hr
  | edelete rid =>
    simp only [step, Option.some_inj] at h
    subst h
    exact fun r hr => Or.inl (List.mem_of_mem_filter hr)
  | etick =>
    simp only [step] at h
    exact tick_history m σ1 σ2 h

/-- C1 (confirmed): superseded-attempt isolation.  If an attempt is in
flight (a live interval `t`) and `generateReport` is called again, the
prior attempt is aborted first: immediately afterwards the live interval
belongs to the new attempt (a different controller identity), and in every
state reachable from there by any further events the live interval is
never the prior attempt's — so no tick of the prior attempt can fire, and
in particular any tick that changes anything at all (such as a
`completed` transition or a history append) acts through an interval of a
different controller identity than the superseded attempt's. -/
theorem c1_superseded_isolation (s : Session) (t : Timer)
    (hinv : invB s = true) (ht : s.timer = some t) :
    (∀ u, (generateReport s).timer = some u → u.controllerId ≠ t.controllerId) ∧
    (∀ σ, Reaches (generateReport s) σ →
      ∀ u, σ.timer = some u → u.controllerId ≠ t.controllerId) ∧
    (∀ σ σ' n, Reaches (generateReport s) σ → tick n σ = some σ' → σ' ≠ σ →
      ∃ u, σ.timer = some u ∧ u.controllerId ≠ t.controllerId) := by
  have hlt : t.controllerId < s.nextCid := by
    rcases hr : s.ref with _ | c
    · simp [invB, ht, hr] at hinv
    · simp [invB, ht, hr] at hinv
      exact hinv.2
  have hJ1 : ∀ u, (generateReport s).timer = some u →
      u.controllerId ≠ t.controllerId := by
    intro u hu
    rw [generateReport_eq] at hu
    simp only [Option.some_inj] at hu
    rw [← hu]
    show s.nextCid ≠ t.controllerId
    omega
  have hJ0 : t.controllerId < (generateReport s).nextCid := by
    rw [generateReport_eq]
    exact Nat.lt_succ_of_lt hlt
  refine ⟨hJ1, ?_, ?_⟩
  · intro σ hσ u hu
    obtain ⟨tr, htr⟩ := hσ
    exact (runTrace_stale tr (generateReport s) σ t.controllerId htr hJ0 hJ1).2 u hu
  · intro σ σ' n hσ htk hne
    rcases hu : σ.timer with _ | u
    · rw [tick_noTimer n σ hu, Option.some_inj] at htk
      exact absurd htk.symm hne
    · obtain ⟨tr, htr⟩ := hσ
      exact ⟨u, rfl,
        (runTrace_stale tr (generateReport s) σ t.controllerId htr hJ0 hJ1).2 u hu⟩

/-- C1 witness: a concrete in-flight sales attempt (controller 0) being
superseded by a second `generateReport`. -/
theorem c1_witness :
    (∀ u, (generateReport (generateReport salesSession)).timer = some u →
      u.controllerId ≠ (0 : Nat)) ∧
    (∀ σ, Reaches (generateReport (generateReport salesSession)) σ →
      ∀ u, σ.timer = some u → u.controllerId ≠ (0 : Nat)) ∧
    (∀ σ σ' n, Reaches (generateReport (generateReport salesSession)) σ →
      tick n σ = some σ' → σ' ≠ σ →
      ∃ u, σ.timer = some u ∧ u.controllerId ≠ (0 : Nat)) :=
  c1_superseded_isolation (generateReport salesSession)
    { controllerId := 0, captSelected := some salesTemplate,
      captFilters := salesFilters, currentProgress := 0 } rfl rfl

/-- C2 counterexample: in a concrete run (generate, three ticks), the
state is `generating`; invoking the user cancellation then yields
`generationStatus = none` (the status display is cleared to idle), not the
distinct `cancelled` value — `cancelGeneration` executes
`setGenerationStatus(null)`, and the tick branch that would set
`'cancelled'` cannot run because the abort listener already cleared the
interval. -/
theorem c2_counterexample :
    (runTrace [(0, Event.egenerate), (500, Event.etick), (1000, Event.etick),
      (1500, Event.etick)] salesSession).map Session.generationStatus
        = some (some GStatus.generating) ∧
    (runTrace [(0, Event.egenerate), (500, Event.etick), (1000, Event.etick),
      (1500, Event.etick), (1500, Event.ecancel)] salesSession).map
        Session.generationStatus = some none ∧
    (some (none : Option GStatus) : Option (Option GStatus))
        ≠ some (some GStatus.cancelled) :=
  ⟨rfl, rfl, by decide⟩

/-- C2 (amended): invoking the user cancellation while the state is
`generating` clears GenerationState to idle (`null`, not a distinct
`cancelled` value), resets progress to 0, stops the pending interval (so
no further tick of that attempt fires — immediately, and in every
reachable later state no live interval carries the cancelled attempt's
controller), and leaves the history unchanged (no ReportRecord is
created). -/
theorem c2_cancel (s : Session)
    (hinv : invB s = true)
    (_hg : s.generationStatus = some GStatus.generating) :
    (cancelGeneration s).generationStatus = none ∧
    (cancelGeneration s).progress = 0 ∧
    (cancelGeneration s).timer = none ∧
    (cancelGeneration s).reportHistory = s.reportHistory ∧
    (∀ n, tick n (cancelGeneration s) = some (cancelGeneration s)) ∧
    (∀ u, s.timer = some u →
      ∀ σ, Reaches (cancelGeneration s) σ →
        ∀ w, σ.timer = some w → w.controllerId ≠ u.controllerId) := by
  have htimer : (cancelGeneration s).timer = none := by
    rcases hr : s.ref with _ | c
    · rcases htm : s.timer with _ | t
      · simp [cancelGeneration, hr, htm]
      · simp [invB, htm, hr] at hinv
    · rcases htm : s.timer with _ | t
      · simp [cancelGeneration, abortController, hr, htm]
      · have hc : t.controllerId = c.cid := by
          simp [invB, htm, hr] at hinv
          exact hinv.1.1.symm
        simp [cancelGeneration, abortController, hr, htm, hc]
  have hhist : (cancelGeneration s).reportHistory = s.reportHistory := by
    rcases hr : s.ref with _ | c
    · simp [cancelGeneration, hr]
    · rcases htm : s.timer with _ | t
      · simp [cancelGeneration, abortController, hr, htm]
      · by_cases hc : t.controllerId = c.cid <;>
          simp [cancelGeneration, abortController, hr, htm, hc]
  refine ⟨rfl, rfl, htimer, hhist, fun n => tick_noTimer n _ htimer, ?_⟩
  intro u hu σ hσ w hw
  have hlt : u.controllerId < s.nextCid := by
    rcases hr : s.ref with _ | c
    · simp [invB, hu, hr] at hinv
    · simp [invB, hu, hr] at hinv
      exact hinv.2
  obtain ⟨tr, htr⟩ := hσ
  refine (runTrace_stale tr (cancelGeneration s) σ u.controllerId htr ?_ ?_).2 w hw
  · rw [cancelGeneration_nextCid]
    exact hlt
  · intro w' hw'
    rw [htimer] at hw'
    cases hw'

/-- C2 witness: cancelling a concrete freshly started sales attempt. -/
theorem c2_witness :
    (cancelGeneration (generateReport salesSession)).generationStatus = none ∧
    (cancelGeneration (generateReport salesSession)).progress = 0 ∧
    (cancelGeneration (generateReport salesSession)).timer = none ∧
    (cancelGeneration (generateReport salesSession)).reportHistory
        = (generateReport salesSession).reportHistory ∧
    (∀ n, tick n (cancelGeneration (generateReport salesSession))
        = some (cancelGeneration (generateReport salesSession))) ∧
    (∀ u, (generateReport salesSession).timer = some u →
      ∀ σ, Reaches (cancelGeneration (generateReport salesSession)) σ →
        ∀ w, σ.timer = some w → w.controllerId ≠ u.controllerId) :=
  c2_cancel (generateReport salesSession) rfl rfl

/-- C3 (confirmed): for an uncancelled, unsuperseded attempt started by
`generateReport` with a template selected, after `i ≤ 9` ticks the state is
still `generating`, progress is exactly `10 * i` (so it strictly increases
by 10 per tick and stays an integer in `[0, 100]`), and the history is
unchanged; the 10th tick transitions to `completed`, sets progress 100,
stops the interval (every later tick is a no-op, so the transition and the
append happen exactly once), and prepends exactly one ReportRecord. -/
theorem c3_progress_completion (s : Session) (T : ReportTemplate)
    (hT : s.selectedReport = some T) :
    (∀ ts : List Nat, ts.length ≤ 9 →
      ∃ σ, runTicks ts (generateReport s) = some σ ∧
        σ.generationStatus = some GStatus.generating ∧
        σ.progress = 10 * ts.length ∧ σ.progress ≤ 100 ∧
        σ.reportHistory = s.reportHistory) ∧
    (∀ ts : List Nat, ∀ tn : Nat, ts.length = 9 →
      ∃ σ, runTicks (ts ++ [tn]) (generateReport s) = some σ ∧
        σ.generationStatus = some GStatus.completed ∧
        σ.progress = 100 ∧ σ.timer = none ∧
        σ.reportHistory = mkReportRecord tn T s.filters :: s.reportHistory ∧
        (∀ m, tick m σ = some σ)) := by
  have hin : InFlightAt (generateReport s) s.nextCid (some T) s.filters 0 := by
    rw [generateReport_eq]
    exact ⟨by rw [hT], rfl, rfl⟩
  have hhist : (generateReport s).reportHistory = s.reportHistory := by
    rw [generateReport_eq]
  have hstat : (generateReport s).generationStatus = some GStatus.generating := by
    rw [generateReport_eq]
  constructor
  · intro ts hlen
    obtain ⟨σ, hrun, hin', hh, hg, _, _, _⟩ :=
      runTicks_mid ts (generateReport s) s.nextCid (some T) s.filters 0 hin
        (by omega)
    obtain ⟨_, _, hprog⟩ := hin'
    refine ⟨σ, hrun, ?_, ?_, ?_, ?_⟩
    · rw [hg, hstat]
    · omega
    · omega
    · rw [hh, hhist]
  · intro ts tn hlen
    obtain ⟨σ, hrun, hcompl, hprog, htm, _, hh, _, _, hticks⟩ :=
      runTicks_complete ts tn (generateReport s) s.nextCid T s.filters 0 hin
        (by omega)
    exact ⟨σ, hrun, hcompl, hprog, htm, by rw [hh, hhist], hticks⟩

/-- C3 witness: the concrete scenario of the spec — sales template, three
filters, ten ticks at 500 ms intervals. -/
theorem c3_witness :
    ∃ σ, runTicks ([500, 1000, 1500, 2000, 2500, 3000, 3500, 4000, 4500] ++ [5000])
        (generateReport salesSession) = some σ ∧
      σ.generationStatus = some GStatus.completed ∧
      σ.progress = 100 ∧ σ.timer = none ∧
      σ.reportHistory = mkReportRecord 5000 salesTemplate salesSession.filters
        :: salesSession.reportHistory ∧
      (∀ m, tick m σ = some σ) :=
  (c3_progress_completion salesSession salesTemplate rfl).2
    [500, 1000, 1500, 2000, 2500, 3000, 3500, 4000, 4500] 5000 rfl

/-- C4 counterexample: the record is NOT a snapshot of FilterValues as of
completion time.  Concrete run: select sales, set the three filters, start
generation, take three ticks, change `region` to `"South"`, then tick to
completion.  The appended record carries `region = "North"` (the closure's
snapshot from when generation started) while FilterValues at completion
time holds `region = "South"`. -/
theorem c4_counterexample :
    (runTrace [(0, Event.egenerate), (500, Event.etick), (1000, Event.etick),
       (1500, Event.etick), (1600, Event.efilter "region" "South"),
       (2000, Event.etick), (2500, Event.etick), (3000, Event.etick),
       (3500, Event.etick), (4000, Event.etick), (4500, Event.etick),
       (5000, Event.etick)] salesSession).map
      (fun σ => (σ.generationStatus, σ.reportHistory.map ReportRecord.filters,
                 σ.filters))
      = some (some GStatus.completed,
          [[("dateRange", "2024-01"), ("region", "North"),
            ("productCategory", "Electronics")]],
          [("dateRange", "2024-01"), ("region", "South"),
           ("productCategory", "Electronics")]) ∧
    ([("dateRange", "2024-01"), ("region", "North"),
      ("productCategory", "Electronics")] : List (String × String)) ≠
      [("dateRange", "2024-01"), ("region", "South"),
       ("productCategory", "Electronics")] :=
  ⟨rfl, by decide⟩

/-- C4 (amended): the ReportRecord synthesized at the completion tick (at
time `n`) contains the selected template's type name, the snapshot copy of
FilterValues captured when the attempt was started (NOT as of completion
time — the closure captures `filters` at `generateReport` invocation, as
the last conjunct-but-one records), generation timestamp `n`, expiration
`n` plus the fixed 28-day window, and the freshly minted download
reference; it is prepended to the history (newest first), and no step ever
rewrites an existing record: any record present after a step was present
before, or is the single freshly prepended one. -/
theorem c4_record_contents (s : Session) (c : Nat) (T : ReportTemplate)
    (F : List (String × String)) (p n : Nat)
    (h : InFlightAt s c (some T) F p) (hp : 100 ≤ p + 10) :
    (∃ σ, tick n s = some σ ∧
      σ.reportHistory = mkReportRecord n T F :: s.reportHistory) ∧
    (mkReportRecord n T F).type = T.name ∧
    (mkReportRecord n T F).filters = F ∧
    (mkReportRecord n T F).generatedAt = n ∧
    (mkReportRecord n T F).expirationDate = n + 28 * 24 * 60 * 60 * 1000 ∧
    (mkReportRecord n T F).downloadLink = "/api/download-report-" ++ toString n ∧
    (mkReportRecord n T F).id = n ∧
    (∀ s0 : Session, (generateReport s0).timer =
      some { controllerId := s0.nextCid, captSelected := s0.selectedReport,
             captFilters := s0.filters, currentProgress := 0 }) ∧
    (∀ m e σ1 σ2, step m e σ1 = some σ2 →
      ∀ r, r ∈ σ2.reportHistory →
        r ∈ σ1.reportHistory ∨ σ2.reportHistory = r :: σ1.reportHistory) := by
  refine ⟨⟨_, tick_complete n s c T F p h hp, rfl⟩, rfl, rfl, rfl, rfl, rfl, rfl,
    ?_, step_history⟩
  intro s0
  rw [generateReport_eq]

/-- C4 witness: the completion tick of a concrete in-flight sales attempt
at progress 90. -/
theorem c4_witness :
    (∃ σ, tick 5000 inflight90 = some σ ∧
      σ.reportHistory = mkReportRecord 5000 salesTemplate salesFilters
        :: inflight90.reportHistory) ∧
    (mkReportRecord 5000 salesTemplate salesFilters).type = salesTemplate.name ∧
    (mkReportRecord 5000 salesTemplate salesFilters).filters = salesFilters ∧
    (mkReportRecord 5000 salesTemplate salesFilters).generatedAt = 5000 ∧
    (mkReportRecord 5000 salesTemplate salesFilters).expirationDate
        = 5000 + 28 * 24 * 60 * 60 * 1000 ∧
    (mkReportRecord 5000 salesTemplate salesFilters).downloadLink
        = "/api/download-report-" ++ toString 5000 ∧
    (mkReportRecord 5000 salesTemplate salesFilters).id = 5000 ∧
    (∀ s0 : Session, (generateReport s0).timer =
      some { controllerId := s0.nextCid, captSelected := s0.selectedReport,
             captFilters := s0.filters, currentProgress := 0 }) ∧
    (∀ m e σ1 σ2, step m e σ1 = some σ2 →
      ∀ r, r ∈ σ2.reportHistory →
        r ∈ σ1.reportHistory ∨ σ2.reportHistory = r :: σ1.reportHistory) :=
  c4_record_contents inflight90 0 salesTemplate salesFilters 90 5000
    ⟨rfl, rfl, rfl⟩ (by decide)

/-- C5 (confirmed): the Generate Report button is enabled (its `disabled`
expression is `false`) iff a template is selected and the number of
FilterValues entries equals the number of the template's FilterSpecs
(count-of-keys equality); under the structural facts that the filter keys
are unique, drawn from the template's spec ids, and the spec ids are
themselves unique, this is equivalent to FilterValues having exactly one
entry per FilterSpec — so with a missing filter the expression is `true`
(the action is disabled, no error is raised). -/
theorem c5_generate_guard (s : Session) (T : ReportTemplate)
    (hT : s.selectedReport = some T)
    (hnd : (s.filters.map Prod.fst).Nodup)
    (hsub : ∀ k ∈ s.filters.map Prod.fst, k ∈ T.filters.map FilterSpec.id)
    (hnds : (T.filters.map FilterSpec.id).Nodup) :
    (generateButtonDisabled s = false ↔ s.filters.length = T.filters.length) ∧
    (generateButtonDisabled s = false ↔
      ∀ fs ∈ T.filters, ∃ v, (fs.id, v) ∈ s.filters) := by
  have hguard : generateButtonDisabled s = false ↔
      s.filters.length = T.filters.length := by
    simp [generateButtonDisabled, hT]
  refine ⟨hguard, hguard.trans ?_⟩
  constructor
  · intro hlen fs hfs
    have hkeys : List.Subperm (s.filters.map Prod.fst) (T.filters.map FilterSpec.id) :=
      List.subperm_of_subset hnd (fun k hk => hsub k hk)
    have hperm : List.Perm (s.filters.map Prod.fst) (T.filters.map FilterSpec.id) :=
      hkeys.perm_of_length_le (by simp [hlen])
    have hidmem : fs.id ∈ s.filters.map Prod.fst :=
      hperm.mem_iff.2 (List.mem_map_of_mem FilterSpec.id hfs)
    obtain ⟨⟨k, v⟩, hmem, hfst⟩ := List.mem_map.1 hidmem
    have hk : k = fs.id := hfst
    subst hk
    exact ⟨v, hmem⟩
  · intro hall
    have h1 : List.Subperm (s.filters.map Prod.fst) (T.filters.map FilterSpec.id) :=
      List.subperm_of_subset hnd (fun k hk => hsub k hk)
    have hsub2 : ∀ i ∈ T.filters.map FilterSpec.id, i ∈ s.filters.map Prod.fst := by
      intro i hi
      obtain ⟨fs, hfs, hid⟩ := List.mem_map.1 hi
      obtain ⟨v, hv⟩ := hall fs hfs
      subst hid
      exact List.mem_map.2 ⟨(fs.id, v), hv, rfl⟩
    have h2 : List.Subperm (T.filters.map FilterSpec.id) (s.filters.map Prod.fst) :=
      List.subperm_of_subset hnds (fun i hi => hsub2 i hi)
    have hlen := Nat.le_antisymm h1.length_le h2.length_le
    simpa using hlen

/-- C5 witness: the guard at the fully filled sales session. -/
theorem c5_witness :
    (generateButtonDisabled salesSession = false ↔
      salesSession.filters.length = salesTemplate.filters.length) ∧
    (generateButtonDisabled salesSession = false ↔
      ∀ fs ∈ salesTemplate.filters, ∃ v, (fs.id, v) ∈ salesSession.filters) :=
  c5_generate_guard salesSession salesTemplate rfl (by decide) (by decide)
    (by decide)

/-- C6 (confirmed): selecting any template `T` of the catalog (the
`Select onValueChange` handler) replaces the selected template with `T`,
resets FilterValues to the empty mapping, and resets GenerationState to
idle (`null`). -/
theorem c6_select_resets (s : Session) (key : String) (T : ReportTemplate)
    (hk : REPORT_TYPES.lookup key = some T) :
    (selectReportTemplate key s).selectedReport = some T ∧
    (selectReportTemplate key s).filters = [] ∧
    (selectReportTemplate key s).generationStatus = none := by
  refine ⟨?_, rfl, rfl⟩
  simp [selectReportTemplate, hk]

/-- C6 witness: re-selecting "sales" on a busy concrete session. -/
theorem c6_witness :
    (selectReportTemplate "sales" (generateReport salesSession)).selectedReport
        = some salesTemplate ∧
    (selectReportTemplate "sales" (generateReport salesSession)).filters = [] ∧
    (selectReportTemplate "sales" (generateReport salesSession)).generationStatus
        = none :=
  c6_select_resets (generateReport salesSession) "sales" salesTemplate rfl

/-- C7 (confirmed): `activeReports` is exactly the subsequence of the
history whose records expire strictly after the current time: it is a
sublist (original newest-first order preserved, history not mutated),
every element of it is a history record with `now < expirationDate`,
every history record with `now < expirationDate` is in it, and every
history record with `expirationDate ≤ now` is excluded. -/
theorem c7_activeReports_filter (now : Nat) (reportHistory : List ReportRecord) :
    (activeReports now reportHistory).Sublist reportHistory ∧
    (∀ r, r ∈ activeReports now reportHistory →
      r ∈ reportHistory ∧ now < r.expirationDate) ∧
    (∀ r ∈ reportHistory, now < r.expirationDate →
      r ∈ activeReports now reportHistory) ∧
    (∀ r ∈ reportHistory, r.expirationDate ≤ now →
      r ∉ activeReports now reportHistory) := by
  refine ⟨List.filter_sublist _, ?_, ?_, ?_⟩
  · intro r hr
    have h := List.mem_filter.1 hr
    exact ⟨h.1, by simpa using h.2⟩
  · intro r hr hlt
    exact List.mem_filter.2 ⟨hr, by simpa using hlt⟩
  · intro r _ hle hmem
    have h := (List.mem_filter.1 hmem).2
    simp only [decide_eq_true_eq] at h
    omega

/-- C7 witness: a history of two records, one expired at the chosen
current time, one still active. -/
theorem c7_witness :
    (activeReports 2419200150 histSession.reportHistory).Sublist
        histSession.reportHistory ∧
    (∀ r, r ∈ activeReports 2419200150 histSession.reportHistory →
      r ∈ histSession.reportHistory ∧ 2419200150 < r.expirationDate) ∧
    (∀ r ∈ histSession.reportHistory, 2419200150 < r.expirationDate →
      r ∈ activeReports 2419200150 histSession.reportHistory) ∧
    (∀ r ∈ histSession.reportHistory, r.expirationDate ≤ 2419200150 →
      r ∉ activeReports 2419200150 histSession.reportHistory) :=
  c7_activeReports_filter 2419200150 histSession.reportHistory

/-- With pairwise-distinct record ids, removing the records matching one
id shrinks the history by at most one element. -/
theorem length_filter_id_ne (l : List ReportRecord) (rid : Nat)
    (hnd : (l.map ReportRecord.id).Nodup) :
    l.length ≤ (l.filter (fun r => r.id ≠ rid)).length + 1 := by
  induction l with
  | nil => simp
  | cons a as ih =>
    obtain ⟨hnotin, hnd'⟩ :=
      List.nodup_cons.1 (show (a.id :: as.map ReportRecord.id).Nodup from hnd)
    by_cases ha : a.id = rid
    · have hall : as.filter (fun r => r.id ≠ rid) = as := by
        rw [List.filter_eq_self]
        intro b hb
        simp only [decide_eq_true_eq]
        intro hbe
        apply hnotin
        rw [ha, ← hbe]
        exact List.mem_map_of_mem ReportRecord.id hb
      rw [List.filter_cons, if_neg (by simp [ha]), hall]
      simp
    · rw [List.filter_cons, if_pos (by simp [ha])]
      have hih := ih hnd'
      simp only [List.length_cons]
      omega

/-- C8 (confirmed): with unique (creation-time-derived) identifiers,
`deleteReport(id)` removes exactly the record with that id: it is a no-op
when no record has the id, the surviving records are exactly the ones with
a different id, kept unchanged in their original order (a sublist), and
the history shrinks by at most one element. -/
theorem c8_deleteReport (s : Session) (rid : Nat)
    (hnd : (s.reportHistory.map ReportRecord.id).Nodup) :
    ((∀ r ∈ s.reportHistory, r.id ≠ rid) →
      (deleteReport rid s).reportHistory = s.reportHistory) ∧
    (deleteReport rid s).reportHistory.Sublist s.reportHistory ∧
    (∀ r ∈ (deleteReport rid s).reportHistory, r.id ≠ rid) ∧
    (∀ r ∈ s.reportHistory, r.id ≠ rid →
      r ∈ (deleteReport rid s).reportHistory) ∧
    s.reportHistory.length ≤ (deleteReport rid s).reportHistory.length + 1 := by
  have hdel : (deleteReport rid s).reportHistory
      = s.reportHistory.filter (fun report => report.id ≠ rid) := rfl
  rw [hdel]
  refine ⟨?_, List.filter_sublist _, ?_, ?_,
    length_filter_id_ne s.reportHistory rid hnd⟩
  · intro hall
    rw [List.filter_eq_self]
    intro b hb
    simpa using hall b hb
  · intro r hr
    have h := (List.mem_filter.1 hr).2
    simpa using h
  · intro r hr hne
    exact List.mem_filter.2 ⟨hr, by simpa using hne⟩

/-- C8 witness: deleting id 100 from a concrete two-record history. -/
theorem c8_witness :
    ((∀ r ∈ histSession.reportHistory, r.id ≠ 100) →
      (deleteReport 100 histSession).reportHistory
        = histSession.reportHistory) ∧
    (deleteReport 100 histSession).reportHistory.Sublist
        histSession.reportHistory ∧
    (∀ r ∈ (deleteReport 100 histSession).reportHistory, r.id ≠ 100) ∧
    (∀ r ∈ histSession.reportHistory, r.id ≠ 100 →
      r ∈ (deleteReport 100 histSession).reportHistory) ∧
    histSession.reportHistory.length
        ≤ (deleteReport 100 histSession).reportHistory.length + 1 :=
  c8_deleteReport histSession 100 (by decide)

/-- C9 (confirmed): changing a filter through the UI handler while an
attempt is generating sets the displayed GenerationState to idle (`null`)
but neither aborts the attempt nor stops its interval (timer and
controller ref are untouched, only `filters` is upserted); the attempt's
remaining ticks then still run to completion: the state becomes
`completed` and exactly one ReportRecord (carrying the closure-captured
filters) is prepended to the history. -/
theorem c9_filter_midflight (s : Session) (c : Nat) (T : ReportTemplate)
    (F : List (String × String)) (i m : Nat) (fid v : String)
    (h : InFlightAt s c (some T) F (10 * i))
    (_hg : s.generationStatus = some GStatus.generating)
    (hi : i ≤ 9) :
    ∃ s1, step m (Event.efilter fid v) s = some s1 ∧
      s1.generationStatus = none ∧
      s1.timer = s.timer ∧ s1.ref = s.ref ∧
      s1.filters = upsert fid v s.filters ∧
      (∀ ts : List Nat, ∀ tn : Nat, ts.length = 9 - i →
        ∃ σ, runTicks (ts ++ [tn]) s1 = some σ ∧
          σ.generationStatus = some GStatus.completed ∧
          σ.progress = 100 ∧
          σ.reportHistory = mkReportRecord tn T F :: s.reportHistory) := by
  refine ⟨_, rfl, rfl, rfl, rfl, rfl, ?_⟩
  intro ts tn hlen
  have hin1 : InFlightAt { updateFilter fid v s with generationStatus := none }
      c (some T) F (10 * i) := ⟨h.1, h.2.1, h.2.2⟩
  obtain ⟨σ, hrun, hcompl, hprog, _, _, hh, _, _, _⟩ :=
    runTicks_complete ts tn _ c T F (10 * i) hin1 (by omega)
  refine ⟨σ, hrun, hcompl, hprog, ?_⟩
  rw [hh]
  rfl

/-- C9 witness: editing `region` right after a concrete sales attempt
starts, then ticking to completion. -/
theorem c9_witness :
    ∃ s1, step 1600 (Event.efilter "region" "South")
        (generateReport salesSession) = some s1 ∧
      s1.generationStatus = none ∧
      s1.timer = (generateReport salesSession).timer ∧
      s1.ref = (generateReport salesSession).ref ∧
      s1.filters = upsert "region" "South" (generateReport salesSession).filters ∧
      (∀ ts : List Nat, ∀ tn : Nat, ts.length = 9 - 0 →
        ∃ σ, runTicks (ts ++ [tn]) s1 = some σ ∧
          σ.generationStatus = some GStatus.completed ∧
          σ.progress = 100 ∧
          σ.reportHistory = mkReportRecord tn salesTemplate salesFilters
            :: (generateReport salesSession).reportHistory) :=
  c9_filter_midflight (generateReport salesSession) 0 salesTemplate
    salesFilters 0 1600 "region" "South" ⟨rfl, rfl, rfl⟩ rfl (by decide)

/-- C10 (confirmed): `generateReport` itself checks nothing — no
filter-completeness and no template guard is consulted (the count-of-keys
guard exists only as the button's `disabled` expression): for a selected
template and ANY FilterValues, including an incomplete or empty mapping,
it transitions to `generating` with progress 0 and the attempt runs to
completion, prepending a ReportRecord that carries exactly those partial
filters. -/
theorem c10_generateReport_unchecked (s : Session) (T : ReportTemplate)
    (hT : s.selectedReport = some T) :
    (generateReport s).generationStatus = some GStatus.generating ∧
    (generateReport s).progress = 0 ∧
    (∀ ts : List Nat, ∀ tn : Nat, ts.length = 9 →
      ∃ σ, runTicks (ts ++ [tn]) (generateReport s) = some σ ∧
        σ.generationStatus = some GStatus.completed ∧
        σ.reportHistory = mkReportRecord tn T s.filters :: s.reportHistory) := by
  have hin : InFlightAt (generateReport s) s.nextCid (some T) s.filters 0 := by
    rw [generateReport_eq]
    exact ⟨by rw [hT], rfl, rfl⟩
  have hhist : (generateReport s).reportHistory = s.reportHistory := by
    rw [generateReport_eq]
  refine ⟨rfl, rfl, ?_⟩
  intro ts tn hlen
  obtain ⟨σ, hrun, hcompl, _, _, _, hh, _, _, _⟩ :=
    runTicks_complete ts tn (generateReport s) s.nextCid T s.filters 0 hin
      (by omega)
  exact ⟨σ, hrun, hcompl, by rw [hh, hhist]⟩

/-- C10 witness: the sales template with NO filters set — the button guard
is `true` (disabled), yet `generateReport` still starts and completes,
recording the empty filter mapping. -/
theorem c10_witness :
    generateButtonDisabled (selectReportTemplate "sales" init) = true ∧
    ((generateReport (selectReportTemplate "sales" init)).generationStatus
        = some GStatus.generating ∧
      (generateReport (selectReportTemplate "sales" init)).progress = 0 ∧
      (∀ ts : List Nat, ∀ tn : Nat, ts.length = 9 →
        ∃ σ, runTicks (ts ++ [tn])
            (generateReport (selectReportTemplate "sales" init)) = some σ ∧
          σ.generationStatus = some GStatus.completed ∧
          σ.reportHistory = mkReportRecord tn salesTemplate
              (selectReportTemplate "sales" init).filters
            :: (selectReportTemplate "sales" init).reportHistory)) :=
  ⟨rfl, c10_generateReport_unchecked (selectReportTemplate "sales" init)
    salesTemplate rfl⟩

end ReportsHub
